import Mathlib

/-!
Shallow embedding of the telnet client core (`pkg/telnet/telnet.go`).

Bytes are modelled as `Nat` (the line terminator `'\n'` is `10`). A byte
source is modelled by the list of bytes it makes immediately available,
followed by the signal (`IOErr`) it reports once those bytes are exhausted:
`.eof` is a clean end-of-stream (`io.EOF`), `.errClosed` is `net.ErrClosed`,
and `.timeout`/`.other` stand for the remaining platform errors. The
`bufio.Reader` wrapped around the source in `readOut` makes all immediately
available bytes buffered, so `Buffered()` is the length of the not yet
consumed part of the source list.

The `Session` structure mirrors the `client` struct: presence booleans stand
for the nilness of `conn`, `in` and `out`, and instrumentation counters
record how many times `Close()` has been delivered to each resource. The
read/write lock is modelled by the count of read locks still held when an
operation returns (`sync.RWMutex`: the write lock taken by `Close` can be
acquired only once no read locks are held).
-/

namespace Telnet

/-- Platform-level errors a stream or dial operation can report: `io.EOF`,
`net.ErrClosed`, a dial timeout, or any other I/O failure (tagged by a code). -/
inductive IOErr where
  | eof
  | errClosed
  | timeout
  | other (code : Nat)
deriving DecidableEq, Repr

/-- Error values produced by the client, one constructor per distinct error shape
in `telnet.go`: the `ErrEOT` sentinel; the `fmt.Errorf("%w: %w", ErrConnClosed, err)`
wrap; the `fmt.Errorf("nil parameter received: connection=%v, ..._stream=%v", ...)`
configuration error of `Send`/`Receive` (carrying the two interpolated booleans);
`"reading failed: %w"`; `"unable to write out the data: %w"`; and
`"connection failed: %w"` from `Connect`. -/
inductive GoErr where
  | eot
  | connClosedWrap (inner : IOErr)
  | config (connNil : Bool) (otherNil : Bool)
  | readFailed (inner : IOErr)
  | writeFailed (inner : IOErr)
  | connectFailed (inner : IOErr)
deriving DecidableEq, Repr

/-- Whether a byte list ends in the line terminator `'\n' = 10`. -/
def endsLF : List Nat → Bool
  | [] => false
  | [b] => b == 10
  | _ :: b :: bs => endsLF (b :: bs)

/-- One `reader.ReadBytes('\n')` step on the unconsumed part of the source:
`some (line, rest)` when a terminator is available (`line` includes it),
`none` when no terminator occurs in the remaining bytes (the read then
returns all remaining bytes together with the source's end signal). -/
def splitLine : List Nat → Option (List Nat × List Nat)
  | [] => none
  | b :: bs =>
    if b = 10 then some ([10], bs)
    else
      match splitLine bs with
      | some (l, r) => some (b :: l, r)
      | none => none

/-- The `for` loop of `client.readOut`, lines 154-172 of `telnet.go`:
repeatedly `ReadBytes('\n')`, appending to the accumulator `res`.
On success with `reader.Buffered() == 0` it stops and returns `res`; on
success with bytes still buffered it loops. On a read error, `ReadBytes`
has already drained the buffer, so `reader.Buffered() == 0` always holds at
that point: the `io.EOF` case returns `nil, ErrEOT` (discarding `res`) and
the source's continue-branch (EOF with bytes still buffered) is unreachable;
`net.ErrClosed` is wrapped in `ErrConnClosed`; anything else becomes
`"reading failed"`. The `fuel` argument bounds the number of iterations;
every iteration consumes at least one source byte, so `readOut` passes
`src.length + 1` and the fuel never runs out (the fuel-zero branch repeats
the error branch and is unreachable from `readOut`). -/
def readOutLoop (endErr : IOErr) : Nat → List Nat → List Nat → Except GoErr (List Nat)
  | 0, _, _ =>
    match endErr with
    | .eof => .error .eot
    | .errClosed => .error (.connClosedWrap .errClosed)
    | e => .error (.readFailed e)
  | fuel + 1, rem, res =>
    match splitLine rem with
    | some (l, r) =>
      if r = [] then .ok (res ++ l)
      else readOutLoop endErr fuel r (res ++ l)
    | none =>
      match endErr with
      | .eof => .error .eot
      | .errClosed => .error (.connClosedWrap .errClosed)
      | e => .error (.readFailed e)

/-- `client.readOut` on a source whose immediately available bytes are `src`
and whose end signal is `endErr`. -/
def readOut (src : List Nat) (endErr : IOErr) : Except GoErr (List Nat) :=
  readOutLoop endErr (src.length + 1) src []

/-- `client.writeOut`: one `w.Write(data)` call. `wres` is the error the sink
reports (`none` on success) and `nPart` how many bytes the sink absorbed
before failing. Returns the bytes the sink received and the classified error:
`net.ErrClosed` is wrapped in `ErrConnClosed`, any other failure becomes
`"unable to write out the data"`. -/
def writeOut (data : List Nat) (wres : Option IOErr) (nPart : Nat) :
    List Nat × Option GoErr :=
  match wres with
  | none => (data, none)
  | some .errClosed => (data.take nPart, some (.connClosedWrap .errClosed))
  | some e => (data.take nPart, some (.writeFailed e))

/-- The `client` struct. `hasConn`/`hasIn`/`hasOut` mirror `c.conn != nil`,
`c.in != nil`, `c.out != nil`; the `...Closes` counters instrument how many
`Close()` calls each resource has received (the code never stores a new
resource, so the counters are per-resource close counts). -/
structure Session where
  timeout : Int
  hasConn : Bool
  hasIn : Bool
  hasOut : Bool
  connCloses : Nat
  inCloses : Nat
  outCloses : Nat
deriving DecidableEq, Repr

/-- `NewClient`: no validation, no connection stored, fresh resources. -/
def newClient (timeout : Int) (hasIn hasOut : Bool) : Session :=
  { timeout := timeout, hasConn := false, hasIn := hasIn, hasOut := hasOut,
    connCloses := 0, inCloses := 0, outCloses := 0 }

/-- Models Go's `net.DialTimeout` (which builds a `net.Dialer` with the given
`Timeout`): per the `net.Dialer` documentation a zero `Timeout` means **no
timeout at all**, so the outcome is whatever the network gives; a negative
`Timeout` yields an already-expired deadline, so the dial fails immediately
with a timeout error; a positive `Timeout` bounds the dial, whose outcome
(success, refusal, or timeout) is abstracted by `netResult`. -/
def dialTimeout (timeout : Int) (netResult : Except IOErr Unit) : Except IOErr Unit :=
  if timeout < 0 then .error .timeout else netResult

/-- `client.Connect`, lines 66-78: dials with the stored timeout; on failure
returns `"connection failed: %w"` without touching the state, on success
stores the connection under the write lock. -/
def Session.connect (s : Session) (netResult : Except IOErr Unit) :
    Session × Option GoErr :=
  match dialTimeout s.timeout netResult with
  | .error e => (s, some (.connectFailed e))
  | .ok _ => ({ s with hasConn := true }, none)

/-- `client.Close`, lines 81-102: under the write lock, the `switch` closes
whichever of `conn` and `in` are non-nil (when both, `in.Close()` runs first
but `conn.Close()`'s error wins: `if err == nil { err = inErr }`), then sets
`c.conn = nil` and returns the error. `c.in` is never cleared. `connErr` and
`inErr` give the error the resource's `k`-th `Close()` call reports. -/
def Session.close (s : Session) (connErr inErr : Nat → Option IOErr) :
    Session × Option IOErr :=
  if s.hasConn && s.hasIn then
    let inRes := inErr s.inCloses
    let connRes := connErr s.connCloses
    ({ s with hasConn := false, connCloses := s.connCloses + 1, inCloses := s.inCloses + 1 },
     if connRes = none then inRes else connRes)
  else if s.hasConn then
    ({ s with hasConn := false, connCloses := s.connCloses + 1 },
     connErr s.connCloses)
  else if s.hasIn then
    ({ s with hasConn := false, inCloses := s.inCloses + 1 },
     inErr s.inCloses)
  else
    (s, none)

/-- Observable outcome of one `Send`/`Receive` call: the returned error, the
bytes delivered to the destination sink during the call, whether the read and
the write primitive were invoked at all, and how many read locks the call
still holds when it returns (it acquired one `RLock` on entry). -/
structure TransferResult where
  err : Option GoErr
  written : List Nat
  readCalled : Bool
  writeCalled : Bool
  rlocksHeld : Nat
deriving DecidableEq, Repr

/-- `client.Send`, lines 105-127: takes the read lock; if `conn` or `in` is
nil it returns the configuration error immediately — note the source reaches
this `return` **before** the `RUnlock`, so the read lock stays held. Otherwise
it unlocks, reads one chunk via `readOut` from the input stream (`inData`
immediately available, `inEnd` the end signal), returns the read error if any,
returns `ErrEOT` on zero-length data, else writes the chunk to the connection
via `writeOut`. -/
def Session.send (s : Session) (inData : List Nat) (inEnd : IOErr)
    (wres : Option IOErr) (nPart : Nat) : TransferResult :=
  if !s.hasConn || !s.hasIn then
    { err := some (.config (!s.hasConn) (!s.hasIn)), written := [],
      readCalled := false, writeCalled := false, rlocksHeld := 1 }
  else
    match readOut inData inEnd with
    | .error e =>
      { err := some e, written := [], readCalled := true,
        writeCalled := false, rlocksHeld := 0 }
    | .ok data =>
      if data.length = 0 then
        { err := some .eot, written := [], readCalled := true,
          writeCalled := false, rlocksHeld := 0 }
      else
        { err := (writeOut data wres nPart).2,
          written := (writeOut data wres nPart).1,
          readCalled := true, writeCalled := true, rlocksHeld := 0 }

/-- `client.Receive`, lines 130-148: symmetric to `Send` — the nil check is on
`conn`/`out` (again returning before the `RUnlock`), the read comes from the
connection, the write goes to the output stream, and there is no zero-length
check. -/
def Session.receive (s : Session) (connData : List Nat) (connEnd : IOErr)
    (wres : Option IOErr) (nPart : Nat) : TransferResult :=
  if !s.hasConn || !s.hasOut then
    { err := some (.config (!s.hasConn) (!s.hasOut)), written := [],
      readCalled := false, writeCalled := false, rlocksHeld := 1 }
  else
    match readOut connData connEnd with
    | .error e =>
      { err := some e, written := [], readCalled := true,
        writeCalled := false, rlocksHeld := 0 }
    | .ok data =>
      { err := (writeOut data wres nPart).2,
        written := (writeOut data wres nPart).1,
        readCalled := true, writeCalled := true, rlocksHeld := 0 }

/-- A `sync.RWMutex` write lock (the first statement of `Close`) can be
acquired only when no read locks are held. -/
def writeLockFree (readLocksHeld : Nat) : Bool :=
  readLocksHeld == 0


theorem endsLF_cons (b : Nat) (l : List Nat) (h : l ≠ []) :
    endsLF (b :: l) = endsLF l := by
  cases l with
  | nil => exact absurd rfl h
  | cons c cs => rfl

theorem endsLF_ne_nil (l : List Nat) (h : endsLF l = true) : l ≠ [] := by
  intro hl
  subst hl
  simp [endsLF] at h

theorem endsLF_append (l r : List Nat) (h : r ≠ []) :
    endsLF (l ++ r) = endsLF r := by
  induction l with
  | nil => rfl
  | cons b bs ih =>
    rw [List.cons_append, endsLF_cons b (bs ++ r) (fun hc => h (List.append_eq_nil.mp hc).2), ih]

theorem splitLine_some (rem : List Nat) :
    ∀ l r, splitLine rem = some (l, r) →
      rem = l ++ r ∧ endsLF l = true ∧ r.length < rem.length := by
  induction rem with
  | nil => intro l r h; simp [splitLine] at h
  | cons b bs ih =>
    intro l r h
    simp only [splitLine] at h
    by_cases hb : b = 10
    · rw [if_pos hb] at h
      injection h with h
      injection h with h1 h2
      subst hb h1 h2
      refine ⟨rfl, rfl, ?_⟩
      simp only [List.length_cons]
      exact Nat.lt_succ_self _
    · rw [if_neg hb] at h
      cases hs : splitLine bs with
      | none => rw [hs] at h; simp at h
      | some p =>
        obtain ⟨l', r'⟩ := p
        rw [hs] at h
        simp only at h
        injection h with h
        injection h with h1 h2
        obtain ⟨hrem, hl, hlt⟩ := ih l' r' hs
        subst h1
        subst h2
        refine ⟨by rw [List.cons_append, hrem], ?_, ?_⟩
        · rw [endsLF_cons b l' (endsLF_ne_nil l' hl)]
          exact hl
        · simp only [List.length_cons]
          omega

theorem splitLine_none (rem : List Nat) (h : splitLine rem = none) :
    endsLF rem = false := by
  induction rem with
  | nil => rfl
  | cons b bs ih =>
    simp only [splitLine] at h
    by_cases hb : b = 10
    · rw [if_pos hb] at h; simp at h
    · rw [if_neg hb] at h
      cases hs : splitLine bs with
      | some p => rw [hs] at h; simp at h
      | none =>
        have hbs := ih hs
        cases bs with
        | nil =>
          simp only [endsLF]
          exact beq_eq_false_iff_ne.mpr hb
        | cons c cs =>
          rw [endsLF_cons b (c :: cs) (by simp)]
          exact hbs

theorem readOutLoop_ends (e : IOErr) :
    ∀ fuel rem res, rem.length < fuel → endsLF rem = true →
      readOutLoop e fuel rem res = .ok (res ++ rem) := by
  intro fuel
  induction fuel with
  | zero => intro rem res h _; exact absurd h (Nat.not_lt_zero _)
  | succ n ih =>
    intro rem res hlen hend
    cases hs : splitLine rem with
    | none => exact absurd hend (by simp [splitLine_none rem hs])
    | some p =>
      obtain ⟨l, r⟩ := p
      obtain ⟨hrem, hl, hlt⟩ := splitLine_some rem l r hs
      simp only [readOutLoop, hs]
      by_cases hr : r = []
      · rw [if_pos hr]
        subst hr
        rw [hrem, List.append_nil]
      · rw [if_neg hr]
        have hend' : endsLF r = true := by
          rw [hrem, endsLF_append l r hr] at hend
          exact hend
        rw [ih r (res ++ l) (by omega) hend', hrem, List.append_assoc]

theorem readOutLoop_not_ends_eof :
    ∀ fuel rem res, rem.length < fuel → endsLF rem = false →
      readOutLoop .eof fuel rem res = .error .eot := by
  intro fuel
  induction fuel with
  | zero => intro rem res h _; exact absurd h (Nat.not_lt_zero _)
  | succ n ih =>
    intro rem res hlen hend
    cases hs : splitLine rem with
    | none => simp only [readOutLoop, hs]
    | some p =>
      obtain ⟨l, r⟩ := p
      obtain ⟨hrem, hl, hlt⟩ := splitLine_some rem l r hs
      simp only [readOutLoop, hs]
      by_cases hr : r = []
      · exfalso
        subst hr
        rw [hrem, List.append_nil] at hend
        rw [hl] at hend
        simp at hend
      · rw [if_neg hr]
        have hend' : endsLF r = false := by
          rw [hrem, endsLF_append l r hr] at hend
          exact hend
        exact ih r (res ++ l) (by omega) hend'

theorem readOutLoop_ok (e : IOErr) :
    ∀ fuel rem res out, readOutLoop e fuel rem res = .ok out →
      out = res ++ rem ∧ rem ≠ [] := by
  intro fuel
  induction fuel with
  | zero =>
    intro rem res out h
    cases e <;> simp [readOutLoop] at h
  | succ n ih =>
    intro rem res out h
    simp only [readOutLoop] at h
    cases hs : splitLine rem with
    | none =>
      rw [hs] at h
      cases e <;> simp at h
    | some p =>
      obtain ⟨l, r⟩ := p
      rw [hs] at h
      simp only at h
      obtain ⟨hrem, hl, _⟩ := splitLine_some rem l r hs
      by_cases hr : r = []
      · rw [if_pos hr] at h
        injection h with h
        subst hr
        refine ⟨by rw [← h, hrem, List.append_nil], ?_⟩
        rw [hrem, List.append_nil]
        exact endsLF_ne_nil l hl
      · rw [if_neg hr] at h
        obtain ⟨ho, _⟩ := ih r (res ++ l) out h
        refine ⟨by rw [ho, hrem, List.append_assoc], ?_⟩
        rw [hrem]
        intro hc
        exact hr (List.append_eq_nil.mp hc).2

theorem readOut_ends (src : List Nat) (e : IOErr) (h : endsLF src = true) :
    readOut src e = .ok src := by
  have := readOutLoop_ends e (src.length + 1) src [] (Nat.lt_succ_self _) h
  rw [readOut, this, List.nil_append]

theorem readOut_eof_not_ends (src : List Nat) (h : endsLF src = false) :
    readOut src IOErr.eof = .error .eot := by
  exact readOutLoop_not_ends_eof (src.length + 1) src [] (Nat.lt_succ_self _) h

theorem readOut_ok (src : List Nat) (e : IOErr) (out : List Nat)
    (h : readOut src e = .ok out) : out = src ∧ src ≠ [] := by
  obtain ⟨ho, hne⟩ := readOutLoop_ok e (src.length + 1) src [] out h
  rw [List.nil_append] at ho
  exact ⟨ho, hne⟩


/-- C1: Refuted on the code (code bug): `Close` clears `c.conn` but never clears
`c.in`, so on a Session holding an input stream a second `Close` falls into the
`c.in != nil` branch and closes the input stream a second time, returning that
close's error rather than success. Evaluated at a session with connection and
input present whose input stream reports an error on its second close (as
`os.Stdin` does): the first `Close` succeeds, the second delivers a second
`Close()` to the input stream (`inCloses = 2`) and returns its error. -/
theorem c1_close_closes_input_twice :
    ((⟨1, true, true, true, 0, 0, 0⟩ : Session).close (fun _ => none)
        (fun n => if n = 0 then none else some (.other 9))).2 = none ∧
    ((((⟨1, true, true, true, 0, 0, 0⟩ : Session).close (fun _ => none)
        (fun n => if n = 0 then none else some (.other 9))).1).close (fun _ => none)
        (fun n => if n = 0 then none else some (.other 9))).1.inCloses = 2 ∧
    ((((⟨1, true, true, true, 0, 0, 0⟩ : Session).close (fun _ => none)
        (fun n => if n = 0 then none else some (.other 9))).1).close (fun _ => none)
        (fun n => if n = 0 then none else some (.other 9))).2 = some (.other 9) :=
  ⟨rfl, rfl, rfl⟩

/-- C2: Counterexample: with immediately available content `"abc"` (no terminator)
followed by clean end-of-stream, `readOut` returns the EOT sentinel and discards
the three bytes it had already accumulated, although the accumulator was nonempty
— contradicting the claim that the sentinel is returned only when the accumulator
is empty and that accumulated unterminated bytes are returned rather than dropped. -/
theorem c2_unterminated_bytes_dropped :
    readOut [97, 98, 99] IOErr.eof = .error .eot ∧
    readOut [97, 98, 99] IOErr.eof ≠ .ok [97, 98, 99] := by
  refine ⟨rfl, ?_⟩
  intro h
  exact Except.noConfusion h

/-- C2 (amended): on a source with clean end-of-stream, `readOut` returns the EOT
sentinel exactly when the available content does not end in the line terminator
(in particular when it is empty) — regardless of the accumulator, whose contents
are then discarded; content ending in the terminator is returned in full. -/
theorem c2_eot_iff_unterminated (src : List Nat) :
    (endsLF src = false → readOut src IOErr.eof = .error .eot) ∧
    (endsLF src = true → readOut src IOErr.eof = .ok src) :=
  ⟨readOut_eof_not_ends src, readOut_ends src IOErr.eof⟩

/-- C2 witness: the amended characterization at the unterminated content `"c"`
and at the terminated content `"\n"`. -/
theorem c2_eot_iff_unterminated_witness :
    readOut [99] IOErr.eof = .error .eot ∧ readOut [10] IOErr.eof = .ok [10] :=
  ⟨(c2_eot_iff_unterminated [99]).1 rfl, (c2_eot_iff_unterminated [10]).2 rfl⟩

/-- C3: On a Session with connection and input present, an input stream that
yields zero bytes with clean end-of-stream makes `Send` return the `ErrEOT`
sentinel, with no read-side data written to the connection and the write
primitive never invoked; and `ErrEOT` is distinguishable by identity
(constructor, not message text) from the configuration, connection-closed,
read, write and connect errors. -/
theorem c3_send_eot_sentinel (s : Session) (wres : Option IOErr) (nPart : Nat)
    (hc : s.hasConn = true) (hi : s.hasIn = true) :
    s.send [] IOErr.eof wres nPart =
      { err := some .eot, written := [], readCalled := true,
        writeCalled := false, rlocksHeld := 0 } ∧
    (∀ a b, GoErr.eot ≠ .config a b) ∧
    (∀ e, GoErr.eot ≠ .connClosedWrap e) ∧
    (∀ e, GoErr.eot ≠ .readFailed e) ∧
    (∀ e, GoErr.eot ≠ .writeFailed e) ∧
    (∀ e, GoErr.eot ≠ .connectFailed e) := by
  have hro : readOut [] IOErr.eof = .error .eot := rfl
  refine ⟨?_, fun a b => by simp, fun e => by simp, fun e => by simp,
    fun e => by simp, fun e => by simp⟩
  simp [Session.send, hc, hi, hro]

/-- C3 witness: the sentinel outcome at a concrete fully-present session. -/
theorem c3_send_eot_sentinel_witness :
    (⟨1, true, true, true, 0, 0, 0⟩ : Session).send [] IOErr.eof none 0 =
      { err := some .eot, written := [], readCalled := true,
        writeCalled := false, rlocksHeld := 0 } :=
  (c3_send_eot_sentinel ⟨1, true, true, true, 0, 0, 0⟩ none 0 rfl rfl).1

/-- C4: `Send` with absent connection or input, and `Receive` with absent
connection or output, return the configuration error carrying which components
are absent, and invoke neither the read nor the write primitive (no bytes reach
the destination sink). -/
theorem c4_config_error_no_io :
    (∀ (s : Session) d de w n, s.hasConn = false ∨ s.hasIn = false →
      (s.send d de w n).err = some (.config (!s.hasConn) (!s.hasIn)) ∧
      (s.send d de w n).readCalled = false ∧
      (s.send d de w n).writeCalled = false ∧
      (s.send d de w n).written = []) ∧
    (∀ (s : Session) d de w n, s.hasConn = false ∨ s.hasOut = false →
      (s.receive d de w n).err = some (.config (!s.hasConn) (!s.hasOut)) ∧
      (s.receive d de w n).readCalled = false ∧
      (s.receive d de w n).writeCalled = false ∧
      (s.receive d de w n).written = []) := by
  constructor <;> intro s d de w n h <;> rcases h with h | h <;>
    simp [Session.send, Session.receive, h]

/-- C4 witness: a session with no connection (and one with no output stream). -/
theorem c4_config_error_no_io_witness :
    ((newClient 1 false true).send [10] IOErr.eof none 0).err =
      some (.config true true) ∧
    ((newClient 1 true false).receive [10] IOErr.eof none 0).err =
      some (.config true true) :=
  ⟨(c4_config_error_no_io.1 (newClient 1 false true) [10] IOErr.eof none 0 (Or.inl rfl)).1,
   (c4_config_error_no_io.2 (newClient 1 true false) [10] IOErr.eof none 0 (Or.inl rfl)).1⟩

/-- C5: The connection handle is absent at construction; `Connect` whose dial
fails returns the wrapped error with the Session unchanged; `Connect` whose dial
succeeds stores the handle; `Close` always leaves the handle cleared. -/
theorem c5_connection_lifecycle :
    (∀ (t : Int) (hi ho : Bool), (newClient t hi ho).hasConn = false) ∧
    (∀ (s : Session) (nr : Except IOErr Unit) (e : IOErr),
      dialTimeout s.timeout nr = .error e →
      s.connect nr = (s, some (.connectFailed e))) ∧
    (∀ (s : Session) (nr : Except IOErr Unit) (u : Unit),
      dialTimeout s.timeout nr = .ok u →
      s.connect nr = ({ s with hasConn := true }, none)) ∧
    (∀ (s : Session) (ce ie : Nat → Option IOErr),
      ((s.close ce ie).1).hasConn = false) := by
  refine ⟨fun t hi ho => rfl, ?_, ?_, ?_⟩
  · intro s nr e h
    simp [Session.connect, h]
  · intro s nr u h
    simp [Session.connect, h]
  · intro s ce ie
    cases h1 : s.hasConn <;> cases h2 : s.hasIn <;> simp [Session.close, h1, h2]

/-- C5 witness: the lifecycle at a concrete session, with a failing and a
successful dial. -/
theorem c5_connection_lifecycle_witness :
    (newClient 5 true true).hasConn = false ∧
    (newClient 5 true true).connect (.error .errClosed) =
      (newClient 5 true true, some (.connectFailed .errClosed)) ∧
    (newClient 5 true true).connect (.ok ()) =
      ({ newClient 5 true true with hasConn := true }, none) ∧
    (((newClient 5 true true).close (fun _ => none) (fun _ => none)).1).hasConn = false :=
  ⟨c5_connection_lifecycle.1 5 true true,
   c5_connection_lifecycle.2.1 (newClient 5 true true) (.error .errClosed) .errClosed rfl,
   c5_connection_lifecycle.2.2.1 (newClient 5 true true) (.ok ()) () rfl,
   c5_connection_lifecycle.2.2.2 (newClient 5 true true) (fun _ => none) (fun _ => none)⟩

/-- C6: One `Close` call delivers exactly one `Close()` to each present resource
(both when both are present, with the connection-close error returned in
priority over the input-close error), returns success immediately when neither
is present, and never closes the output stream. -/
theorem c6_close_first_call (s : Session) (ce ie : Nat → Option IOErr) :
    ((s.close ce ie).1).outCloses = s.outCloses ∧
    (s.hasConn = true → s.hasIn = true →
      ((s.close ce ie).1).connCloses = s.connCloses + 1 ∧
      ((s.close ce ie).1).inCloses = s.inCloses + 1 ∧
      (s.close ce ie).2 =
        (if ce s.connCloses = none then ie s.inCloses else ce s.connCloses)) ∧
    (s.hasConn = true → s.hasIn = false →
      ((s.close ce ie).1).connCloses = s.connCloses + 1 ∧
      ((s.close ce ie).1).inCloses = s.inCloses ∧
      (s.close ce ie).2 = ce s.connCloses) ∧
    (s.hasConn = false → s.hasIn = true →
      ((s.close ce ie).1).connCloses = s.connCloses ∧
      ((s.close ce ie).1).inCloses = s.inCloses + 1 ∧
      (s.close ce ie).2 = ie s.inCloses) ∧
    (s.hasConn = false → s.hasIn = false → s.close ce ie = (s, none)) := by
  cases h1 : s.hasConn <;> cases h2 : s.hasIn <;> simp [Session.close, h1, h2]

/-- C6 witness: error priority when both closes fail, the input-close error when
only it fails, immediate success with nothing present, and an untouched output
stream. -/
theorem c6_close_first_call_witness :
    ((⟨1, true, true, true, 0, 0, 0⟩ : Session).close (fun _ => some .errClosed)
      (fun _ => some (.other 3))).2 = some .errClosed ∧
    ((⟨1, true, true, true, 0, 0, 0⟩ : Session).close (fun _ => none)
      (fun _ => some (.other 3))).2 = some (.other 3) ∧
    ((⟨1, false, false, true, 0, 0, 0⟩ : Session).close (fun _ => some .errClosed)
      (fun _ => some (.other 3))) = (⟨1, false, false, true, 0, 0, 0⟩, none) ∧
    ((⟨1, true, true, true, 0, 0, 0⟩ : Session).close (fun _ => none)
      (fun _ => none)).1.outCloses = 0 :=
  ⟨((c6_close_first_call ⟨1, true, true, true, 0, 0, 0⟩ (fun _ => some .errClosed)
      (fun _ => some (.other 3))).2.1 rfl rfl).2.2,
   ((c6_close_first_call ⟨1, true, true, true, 0, 0, 0⟩ (fun _ => none)
      (fun _ => some (.other 3))).2.1 rfl rfl).2.2,
   (c6_close_first_call ⟨1, false, false, true, 0, 0, 0⟩ (fun _ => some .errClosed)
      (fun _ => some (.other 3))).2.2.2.2 rfl rfl,
   (c6_close_first_call ⟨1, true, true, true, 0, 0, 0⟩ (fun _ => none)
      (fun _ => none)).1⟩

/-- C7: On a fully present session whose available content is terminator
delimited, one `Send` writes exactly those bytes, unmodified and in order, to
the connection; symmetrically one `Receive` writes exactly the connection's
terminator-delimited bytes to the output stream. -/
theorem c7_round_trip :
    (∀ (s : Session) (src : List Nat) (e : IOErr) (n : Nat),
      s.hasConn = true → s.hasIn = true → endsLF src = true →
      s.send src e none n =
        { err := none, written := src, readCalled := true,
          writeCalled := true, rlocksHeld := 0 }) ∧
    (∀ (s : Session) (src : List Nat) (e : IOErr) (n : Nat),
      s.hasConn = true → s.hasOut = true → endsLF src = true →
      s.receive src e none n =
        { err := none, written := src, readCalled := true,
          writeCalled := true, rlocksHeld := 0 }) := by
  constructor
  · intro s src e n hc hi hend
    have hro := readOut_ends src e hend
    have hne : src ≠ [] := endsLF_ne_nil src hend
    simp [Session.send, hc, hi, hro, writeOut, List.length_eq_zero, hne]
  · intro s src e n hc ho hend
    have hro := readOut_ends src e hend
    simp [Session.receive, hc, ho, hro, writeOut]

/-- C7 witness: `Send` of `"hello\n"` and `Receive` of `"world\n"`. -/
theorem c7_round_trip_witness :
    (⟨1, true, true, true, 0, 0, 0⟩ : Session).send
        [104, 101, 108, 108, 111, 10] IOErr.eof none 0 =
      { err := none, written := [104, 101, 108, 108, 111, 10], readCalled := true,
        writeCalled := true, rlocksHeld := 0 } ∧
    (⟨1, true, true, true, 0, 0, 0⟩ : Session).receive
        [119, 111, 114, 108, 100, 10] IOErr.eof none 0 =
      { err := none, written := [119, 111, 114, 108, 100, 10], readCalled := true,
        writeCalled := true, rlocksHeld := 0 } :=
  ⟨c7_round_trip.1 ⟨1, true, true, true, 0, 0, 0⟩ [104, 101, 108, 108, 111, 10]
      IOErr.eof 0 rfl rfl rfl,
   c7_round_trip.2 ⟨1, true, true, true, 0, 0, 0⟩ [119, 111, 114, 108, 100, 10]
      IOErr.eof 0 rfl rfl rfl⟩

/-- C8: Refuted on the code (code bug): `Connect` performs no timeout
validation, and Go's `net.DialTimeout` applies **no timeout at all** when the
`Dialer.Timeout` is zero, so a zero-timeout `Connect` to a reachable address
silently succeeds — the connection handle is stored and no error is returned.
(A negative timeout does fail via the already-expired deadline.) -/
theorem c8_zero_timeout_silent_success :
    (newClient 0 true true).connect (.ok ()) =
      ({ newClient 0 true true with hasConn := true }, none) ∧
    (newClient (-1) true true).connect (.ok ()) =
      (newClient (-1) true true, some (.connectFailed .timeout)) := by
  constructor <;> simp [Session.connect, newClient, dialTimeout]

/-- C9: Refuted on the code (code bug): `Send` and `Receive` return from the
nil-parameter check **before** the `RUnlock` call, so the read lock acquired on
entry is still held when the call returns; `Close`'s first statement acquires
the write lock, which a `sync.RWMutex` grants only once no read locks are held,
so a `Close` after (or concurrent with) such a call blocks forever. Evaluated at
a session with no connection: both calls return holding one read lock, and the
write lock is not acquirable. -/
theorem c9_send_config_path_keeps_read_lock :
    ((newClient 1 true true).send [104, 10] IOErr.eof none 0).rlocksHeld = 1 ∧
    writeLockFree (((newClient 1 true true).send [104, 10] IOErr.eof none 0).rlocksHeld)
      = false ∧
    ((newClient 1 true true).receive [104, 10] IOErr.eof none 0).rlocksHeld = 1 ∧
    writeLockFree (((newClient 1 true true).receive [104, 10] IOErr.eof none 0).rlocksHeld)
      = false :=
  ⟨rfl, rfl, rfl, rfl⟩

/-- C10: `readOut` never returns an empty byte list with success — a successful
read contains at least the terminator of its first line — and consequently
whenever `Send` returns the EOT sentinel it originates from `readOut`'s own
end-of-stream branch, never from `Send`'s unreachable zero-length-data check. -/
theorem c10_read_never_ok_empty :
    (∀ (src : List Nat) (e : IOErr) (out : List Nat),
      readOut src e = .ok out → out ≠ []) ∧
    (∀ (s : Session) (d : List Nat) (de : IOErr) (w : Option IOErr) (n : Nat),
      (s.send d de w n).err = some .eot → readOut d de = .error .eot) := by
  constructor
  · intro src e out h
    obtain ⟨ho, hne⟩ := readOut_ok src e out h
    rw [ho]
    exact hne
  · intro s d de w n h
    cases hc : s.hasConn with
    | false => simp [Session.send, hc] at h
    | true =>
      cases hi : s.hasIn with
      | false => simp [Session.send, hc, hi] at h
      | true =>
        cases hro : readOut d de with
        | error ge =>
          simp [Session.send, hc, hi, hro] at h
          rw [h]
        | ok data =>
          obtain ⟨hd, hne⟩ := readOut_ok d de data hro
          subst hd
          exfalso
          simp [Session.send, hc, hi, hro, List.length_eq_zero, hne] at h
          cases w with
          | none => simp [writeOut] at h
          | some e' => cases e' <;> simp [writeOut] at h

/-- C10 witness: a successful read of `"\n"` is nonempty, and the sentinel from
a `Send` on an exhausted empty input indeed comes from `readOut`. -/
theorem c10_read_never_ok_empty_witness :
    ([10] : List Nat) ≠ [] ∧ readOut [] IOErr.eof = .error .eot :=
  ⟨c10_read_never_ok_empty.1 [10] IOErr.eof [10] rfl,
   c10_read_never_ok_empty.2 ⟨1, true, true, true, 0, 0, 0⟩ [] IOErr.eof none 0 rfl⟩

end Telnet
